import Mathlib

/-!
Verification of the suid wrapper (`src/suid-wrapper.c`).

The program is a straight-line privilege-transition launcher:
argument check, `getpwnam` lookup, root guard, `capng_clear`,
`capng_updatev`, `capng_change_id`, `execvpe`.  We embed it as a pure
function from a `World` (the invocation arguments together with the
results the external collaborators would return) to the trace of
observable events it performs and the final outcome (a normal exit
with a status code, or replacement of the process image).
-/

namespace SuidWrapper

/-- The two capabilities the program grants back: CAP_SETUID, CAP_SETGID. -/
inductive Cap where
  | setuid
  | setgid
deriving DecidableEq

/-- The four capability categories of `capng_updatev`'s second argument. -/
inductive CapCategory where
  | effective
  | permitted
  | inheritable
  | ambient
deriving DecidableEq

/-- The selection argument of `capng_clear`. -/
inductive CapngSelect where
  | caps
  | bounds
  | both
deriving DecidableEq

/-- One entry of the system identity database, as returned by `getpwnam`
(the two fields the program reads). -/
structure Passwd where
  pw_uid : Nat
  pw_gid : Nat
deriving DecidableEq

/-- Observable events of a run, in program order: control-flow
observations (`validateArgs`, `rootCheck`), calls into the external
collaborators, and diagnostic messages written to standard error. -/
inductive Event where
  /-- The argument count test `argc <= 2` is evaluated on this `argc`. -/
  | validateArgs (argc : Nat)
  /-- stderr: the usage message, naming the program. -/
  | usage (prog : String)
  /-- `getpwnam` is called on this user name. -/
  | lookupUser (name : String)
  /-- stderr: `perror(tag)` with the current error indicator `err`. -/
  | perrorOut (tag : String) (err : Nat)
  /-- stderr: "getpwnam: can not find user `name`". -/
  | userNotFound (name : String)
  /-- The root guard `uid == 0` is evaluated on this resolved uid. -/
  | rootCheck (uid : Nat)
  /-- stderr: "can not run as root (uid = 0)". -/
  | rootDisallowed
  /-- `capng_clear(sel)` is called. -/
  | capngClear (sel : CapngSelect)
  /-- `capng_updatev(CAPNG_ADD, cats, caps..., -1)` is called. -/
  | capngAdd (cats : List CapCategory) (caps : List Cap)
  /-- stderr: "capng_updatev() returns `ret`". -/
  | capngUpdatevFailed (ret : Int)
  /-- `capng_change_id(uid, gid, flags)` is called; `initSuppGrp` records
  whether CAPNG_INIT_SUPP_GRP was in the flags. -/
  | capngChangeId (uid gid : Nat) (initSuppGrp : Bool)
  /-- stderr: "capng_change_id() returns `ret`". -/
  | capngChangeIdFailed (ret : Int)
  /-- `execvpe(file, args, env)` is called. -/
  | execvpeCall (file : String) (args : List String) (env : List String)
  /-- stderr: `perror("execvpe")` with the current error indicator `err`. -/
  | execFailed (err : Nat)
deriving DecidableEq

/-- Final outcome of a run: a normal process exit with a status code,
or replacement of the process image by a successful `execvpe`. -/
inductive Outcome where
  | exited (code : Nat)
  | replaced
deriving DecidableEq

def EXIT_SUCCESS : Nat := 0

def EXIT_FAILURE : Nat := 1

/-- Everything the environment decides about one invocation: the
argument and environment vectors, the initial value of the error
indicator `errno`, what `getpwnam` returns for `argv[1]` (`pwnam`) and
the error code it signals via `errno`, if any (`pwnamErr`), the return
values of the two libcap-ng mutations, and whether `execvpe` succeeds
(`execOk`) or fails signalling `execErr` via `errno`. -/
structure World where
  argv : List String
  envp : List String
  errno0 : Nat
  pwnam : Option Passwd
  pwnamErr : Option Nat
  updatevRet : Int
  changeIdRet : Int
  execOk : Bool
  execErr : Option Nat
deriving DecidableEq

/-- Shallow embedding of `main` in `src/suid-wrapper.c`: the event
trace in program order, and the outcome.  The error indicator is
threaded explicitly: `errno = 0` at lines 22 and 53 of the source,
`getpwnam` and a failed `execvpe` may overwrite it, `perror` reads it. -/
def run (w : World) : List Event × Outcome :=
  let argc := w.argv.length
  -- the error indicator has some value when the process starts
  let errno := w.errno0
  if argc ≤ 2 then
    ([.validateArgs argc, .usage (w.argv.headD "")], .exited EXIT_FAILURE)
  else
    let name := w.argv.getD 1 ""
    -- line 22: errno = 0
    let errno := 0
    -- line 23: getpwnam(argv[1]); the call may set the error indicator
    let errno := match w.pwnamErr with
      | some e => e
      | none => errno
    match w.pwnam with
    | none =>
      if errno ≠ 0 then
        ([.validateArgs argc, .lookupUser name, .perrorOut "getpanam" errno],
          .exited EXIT_FAILURE)
      else
        ([.validateArgs argc, .lookupUser name, .userNotFound name],
          .exited EXIT_FAILURE)
    | some pwd =>
      let uid := pwd.pw_uid
      let gid := pwd.pw_gid
      if uid = 0 then
        ([.validateArgs argc, .lookupUser name, .rootCheck uid, .rootDisallowed],
          .exited EXIT_FAILURE)
      else
        -- lines 37-41: capng_clear(CAPNG_SELECT_BOTH); capng_updatev(...)
        if w.updatevRet < 0 then
          ([.validateArgs argc, .lookupUser name, .rootCheck uid,
            .capngClear .both,
            .capngAdd [.effective, .permitted, .inheritable, .ambient]
              [.setuid, .setgid],
            .capngUpdatevFailed w.updatevRet], .exited EXIT_FAILURE)
        else
          -- line 47: capng_change_id(uid, gid, CAPNG_INIT_SUPP_GRP)
          if w.changeIdRet < 0 then
            ([.validateArgs argc, .lookupUser name, .rootCheck uid,
              .capngClear .both,
              .capngAdd [.effective, .permitted, .inheritable, .ambient]
                [.setuid, .setgid],
              .capngChangeId uid gid true,
              .capngChangeIdFailed w.changeIdRet], .exited EXIT_FAILURE)
          else
            -- line 53: errno = 0; line 54: execvpe(argv[2], &argv[2], envp)
            let errno := 0
            if w.execOk then
              ([.validateArgs argc, .lookupUser name, .rootCheck uid,
                .capngClear .both,
                .capngAdd [.effective, .permitted, .inheritable, .ambient]
                  [.setuid, .setgid],
                .capngChangeId uid gid true,
                .execvpeCall (w.argv.getD 2 "") (w.argv.drop 2) w.envp],
                .replaced)
            else
              let errno := match w.execErr with
                | some e => e
                | none => errno
              ([.validateArgs argc, .lookupUser name, .rootCheck uid,
                .capngClear .both,
                .capngAdd [.effective, .permitted, .inheritable, .ambient]
                  [.setuid, .setgid],
                .capngChangeId uid gid true,
                .execvpeCall (w.argv.getD 2 "") (w.argv.drop 2) w.envp,
                .execFailed errno], .exited EXIT_FAILURE)

/-- The trace of a run. -/
def trace (w : World) : List Event := (run w).1

/-- The outcome of a run. -/
def outcome (w : World) : Outcome := (run w).2

/-- Events that mutate the process capability state
(`capng_clear`, `capng_updatev`). -/
def isCapMutation : Event → Bool
  | .capngClear _ => true
  | .capngAdd _ _ => true
  | _ => false

/-- Events that attempt the identity switch (`capng_change_id`). -/
def isIdentitySwitch : Event → Bool
  | .capngChangeId _ _ _ => true
  | _ => false

/-- Events that attempt the exec (`execvpe`). -/
def isExecAttempt : Event → Bool
  | .execvpeCall _ _ _ => true
  | _ => false

/-- Events that write a diagnostic message to standard error. -/
def isDiagnostic : Event → Bool
  | .usage _ => true
  | .perrorOut _ _ => true
  | .userNotFound _ => true
  | .rootDisallowed => true
  | .capngUpdatevFailed _ => true
  | .capngChangeIdFailed _ => true
  | .execFailed _ => true
  | _ => false

/-- The pipeline stage an event belongs to: 0 argument validation,
1 identity resolution, 2 root check, 3 capability clear,
4 capability grant, 5 identity switch, 6 exec. -/
def phase : Event → Nat
  | .validateArgs _ => 0
  | .usage _ => 0
  | .lookupUser _ => 1
  | .perrorOut _ _ => 1
  | .userNotFound _ => 1
  | .rootCheck _ => 2
  | .rootDisallowed => 2
  | .capngClear _ => 3
  | .capngAdd _ _ => 4
  | .capngUpdatevFailed _ => 4
  | .capngChangeId _ _ _ => 5
  | .capngChangeIdFailed _ => 5
  | .execvpeCall _ _ _ => 6
  | .execFailed _ => 6

/-- The core action of each pipeline stage (as opposed to its
diagnostics): the events that must not be revisited. -/
def isAction : Event → Bool
  | .validateArgs _ => true
  | .lookupUser _ => true
  | .rootCheck _ => true
  | .capngClear _ => true
  | .capngAdd _ _ => true
  | .capngChangeId _ _ _ => true
  | .execvpeCall _ _ _ => true
  | _ => false

/-! Concrete invocations used to instantiate the theorems below. -/

/-- Invocation with a single argument token. -/
def wUsage : World := ⟨["prog"], [], 7, none, none, 0, 0, true, none⟩

/-- Invocation naming a user absent from the identity database,
the lookup signalling no error. -/
def wNotFound : World := ⟨["prog", "ghost", "/bin/true"], [], 7, none, none,
  0, 0, true, none⟩

/-- Invocation whose lookup itself errors with code 12. -/
def wLookupErr : World := ⟨["prog", "alice", "/bin/true"], [], 0, none,
  some 12, 0, 0, true, none⟩

/-- Invocation whose target name "admin" resolves to uid 0. -/
def wRoot : World := ⟨["prog", "admin", "/bin/sh"], [], 0, some ⟨0, 5⟩,
  none, 0, 0, true, none⟩

/-- Invocation where `capng_updatev` fails with -1. -/
def wUpdatevFail : World := ⟨["prog", "alice", "/bin/echo", "hi"], [], 0,
  some ⟨1000, 1000⟩, none, -1, 0, true, none⟩

/-- Invocation where `capng_change_id` fails with -2. -/
def wChangeIdFail : World := ⟨["prog", "alice", "/bin/echo"], [], 0,
  some ⟨1000, 1000⟩, none, 0, -2, true, none⟩

/-- Fully successful invocation; the target's primary group id is 0. -/
def wOk : World := ⟨["prog", "alice", "/bin/echo", "hello"], ["PATH=/bin"],
  0, some ⟨1000, 0⟩, none, 0, 0, true, none⟩

/-- Invocation whose exec fails with errno 2. -/
def wExecFail : World := ⟨["prog", "alice", "/nonexistent"], [], 3,
  some ⟨1000, 1000⟩, none, 0, 0, false, some 2⟩

/-! Characterisation of `run` on each of its eight control paths. -/

theorem run_usage (w : World) (h : w.argv.length ≤ 2) :
    run w = ([.validateArgs w.argv.length, .usage (w.argv.headD "")],
      .exited EXIT_FAILURE) := by
  simp [run, h]

theorem run_lookup_perror (w : World) (e : Nat) (hargs : 2 < w.argv.length)
    (hpw : w.pwnam = none) (he : w.pwnamErr = some e) (he0 : e ≠ 0) :
    run w = ([.validateArgs w.argv.length, .lookupUser (w.argv.getD 1 ""),
      .perrorOut "getpanam" e], .exited EXIT_FAILURE) := by
  simp only [run, hpw, he]
  rw [if_neg (by omega : ¬ w.argv.length ≤ 2)]
  simp [he0]

theorem run_lookup_notfound (w : World) (hargs : 2 < w.argv.length)
    (hpw : w.pwnam = none) (he : w.pwnamErr.getD 0 = 0) :
    run w = ([.validateArgs w.argv.length, .lookupUser (w.argv.getD 1 ""),
      .userNotFound (w.argv.getD 1 "")], .exited EXIT_FAILURE) := by
  rcases h : w.pwnamErr with _ | e
  · simp only [run, hpw, h]
    rw [if_neg (by omega : ¬ w.argv.length ≤ 2)]
    simp
  · rw [h] at he
    simp only [Option.getD_some] at he
    subst he
    simp only [run, hpw, h]
    rw [if_neg (by omega : ¬ w.argv.length ≤ 2)]
    simp

theorem run_root (w : World) (pwd : Passwd) (hargs : 2 < w.argv.length)
    (hpw : w.pwnam = some pwd) (h0 : pwd.pw_uid = 0) :
    run w = ([.validateArgs w.argv.length, .lookupUser (w.argv.getD 1 ""),
      .rootCheck 0, .rootDisallowed], .exited EXIT_FAILURE) := by
  simp only [run, hpw, h0]
  rw [if_neg (by omega : ¬ w.argv.length ≤ 2)]
  simp

theorem run_updatev_fail (w : World) (pwd : Passwd) (hargs : 2 < w.argv.length)
    (hpw : w.pwnam = some pwd) (h0 : pwd.pw_uid ≠ 0) (hu : w.updatevRet < 0) :
    run w = ([.validateArgs w.argv.length, .lookupUser (w.argv.getD 1 ""),
      .rootCheck pwd.pw_uid, .capngClear .both,
      .capngAdd [.effective, .permitted, .inheritable, .ambient] [.setuid, .setgid],
      .capngUpdatevFailed w.updatevRet], .exited EXIT_FAILURE) := by
  simp only [run, hpw]
  rw [if_neg (by omega : ¬ w.argv.length ≤ 2)]
  simp [h0, hu]

theorem run_changeid_fail (w : World) (pwd : Passwd) (hargs : 2 < w.argv.length)
    (hpw : w.pwnam = some pwd) (h0 : pwd.pw_uid ≠ 0)
    (hu : ¬ w.updatevRet < 0) (hc : w.changeIdRet < 0) :
    run w = ([.validateArgs w.argv.length, .lookupUser (w.argv.getD 1 ""),
      .rootCheck pwd.pw_uid, .capngClear .both,
      .capngAdd [.effective, .permitted, .inheritable, .ambient] [.setuid, .setgid],
      .capngChangeId pwd.pw_uid pwd.pw_gid true,
      .capngChangeIdFailed w.changeIdRet], .exited EXIT_FAILURE) := by
  simp only [run, hpw]
  rw [if_neg (by omega : ¬ w.argv.length ≤ 2)]
  simp [h0, hu, hc]

theorem run_exec_ok (w : World) (pwd : Passwd) (hargs : 2 < w.argv.length)
    (hpw : w.pwnam = some pwd) (h0 : pwd.pw_uid ≠ 0)
    (hu : ¬ w.updatevRet < 0) (hc : ¬ w.changeIdRet < 0) (hx : w.execOk = true) :
    run w = ([.validateArgs w.argv.length, .lookupUser (w.argv.getD 1 ""),
      .rootCheck pwd.pw_uid, .capngClear .both,
      .capngAdd [.effective, .permitted, .inheritable, .ambient] [.setuid, .setgid],
      .capngChangeId pwd.pw_uid pwd.pw_gid true,
      .execvpeCall (w.argv.getD 2 "") (w.argv.drop 2) w.envp], .replaced) := by
  simp only [run, hpw]
  rw [if_neg (by omega : ¬ w.argv.length ≤ 2)]
  simp [h0, hu, hc, hx]

theorem run_exec_fail (w : World) (pwd : Passwd) (hargs : 2 < w.argv.length)
    (hpw : w.pwnam = some pwd) (h0 : pwd.pw_uid ≠ 0)
    (hu : ¬ w.updatevRet < 0) (hc : ¬ w.changeIdRet < 0) (hx : w.execOk = false) :
    run w = ([.validateArgs w.argv.length, .lookupUser (w.argv.getD 1 ""),
      .rootCheck pwd.pw_uid, .capngClear .both,
      .capngAdd [.effective, .permitted, .inheritable, .ambient] [.setuid, .setgid],
      .capngChangeId pwd.pw_uid pwd.pw_gid true,
      .execvpeCall (w.argv.getD 2 "") (w.argv.drop 2) w.envp,
      .execFailed (w.execErr.getD 0)], .exited EXIT_FAILURE) := by
  rcases h : w.execErr with _ | e <;>
  · simp only [run, hpw, h]
    rw [if_neg (by omega : ¬ w.argv.length ≤ 2)]
    simp [h0, hu, hc, hx]

/-- Case analysis on the eight control paths of `run`. -/
theorem run_elim (w : World) (P : List Event × Outcome → Prop)
    (husage : w.argv.length ≤ 2 →
      P ([.validateArgs w.argv.length, .usage (w.argv.headD "")],
        .exited EXIT_FAILURE))
    (hperror : ∀ e, 2 < w.argv.length → w.pwnam = none → w.pwnamErr = some e →
      e ≠ 0 →
      P ([.validateArgs w.argv.length, .lookupUser (w.argv.getD 1 ""),
        .perrorOut "getpanam" e], .exited EXIT_FAILURE))
    (hnotfound : 2 < w.argv.length → w.pwnam = none → w.pwnamErr.getD 0 = 0 →
      P ([.validateArgs w.argv.length, .lookupUser (w.argv.getD 1 ""),
        .userNotFound (w.argv.getD 1 "")], .exited EXIT_FAILURE))
    (hroot : ∀ pwd, 2 < w.argv.length → w.pwnam = some pwd → pwd.pw_uid = 0 →
      P ([.validateArgs w.argv.length, .lookupUser (w.argv.getD 1 ""),
        .rootCheck 0, .rootDisallowed], .exited EXIT_FAILURE))
    (hupd : ∀ pwd, 2 < w.argv.length → w.pwnam = some pwd → pwd.pw_uid ≠ 0 →
      w.updatevRet < 0 →
      P ([.validateArgs w.argv.length, .lookupUser (w.argv.getD 1 ""),
        .rootCheck pwd.pw_uid, .capngClear .both,
        .capngAdd [.effective, .permitted, .inheritable, .ambient]
          [.setuid, .setgid],
        .capngUpdatevFailed w.updatevRet], .exited EXIT_FAILURE))
    (hchg : ∀ pwd, 2 < w.argv.length → w.pwnam = some pwd → pwd.pw_uid ≠ 0 →
      ¬ w.updatevRet < 0 → w.changeIdRet < 0 →
      P ([.validateArgs w.argv.length, .lookupUser (w.argv.getD 1 ""),
        .rootCheck pwd.pw_uid, .capngClear .both,
        .capngAdd [.effective, .permitted, .inheritable, .ambient]
          [.setuid, .setgid],
        .capngChangeId pwd.pw_uid pwd.pw_gid true,
        .capngChangeIdFailed w.changeIdRet], .exited EXIT_FAILURE))
    (hok : ∀ pwd, 2 < w.argv.length → w.pwnam = some pwd → pwd.pw_uid ≠ 0 →
      ¬ w.updatevRet < 0 → ¬ w.changeIdRet < 0 → w.execOk = true →
      P ([.validateArgs w.argv.length, .lookupUser (w.argv.getD 1 ""),
        .rootCheck pwd.pw_uid, .capngClear .both,
        .capngAdd [.effective, .permitted, .inheritable, .ambient]
          [.setuid, .setgid],
        .capngChangeId pwd.pw_uid pwd.pw_gid true,
        .execvpeCall (w.argv.getD 2 "") (w.argv.drop 2) w.envp], .replaced))
    (hfail : ∀ pwd, 2 < w.argv.length → w.pwnam = some pwd → pwd.pw_uid ≠ 0 →
      ¬ w.updatevRet < 0 → ¬ w.changeIdRet < 0 → w.execOk = false →
      P ([.validateArgs w.argv.length, .lookupUser (w.argv.getD 1 ""),
        .rootCheck pwd.pw_uid, .capngClear .both,
        .capngAdd [.effective, .permitted, .inheritable, .ambient]
          [.setuid, .setgid],
        .capngChangeId pwd.pw_uid pwd.pw_gid true,
        .execvpeCall (w.argv.getD 2 "") (w.argv.drop 2) w.envp,
        .execFailed (w.execErr.getD 0)], .exited EXIT_FAILURE)) :
    P (run w) := by
  by_cases h2 : w.argv.length ≤ 2
  · rw [run_usage w h2]
    exact husage h2
  · have hargs : 2 < w.argv.length := by omega
    rcases hpw : w.pwnam with _ | pwd
    · rcases hpe : w.pwnamErr with _ | e
      · rw [run_lookup_notfound w hargs hpw (by simp [hpe])]
        exact hnotfound hargs hpw (by simp [hpe])
      · by_cases he0 : e = 0
        · subst he0
          rw [run_lookup_notfound w hargs hpw (by simp [hpe])]
          exact hnotfound hargs hpw (by simp [hpe])
        · rw [run_lookup_perror w e hargs hpw hpe he0]
          exact hperror e hargs hpw hpe he0
    · by_cases h0 : pwd.pw_uid = 0
      · rw [run_root w pwd hargs hpw h0]
        exact hroot pwd hargs hpw h0
      · by_cases hu : w.updatevRet < 0
        · rw [run_updatev_fail w pwd hargs hpw h0 hu]
          exact hupd pwd hargs hpw h0 hu
        · by_cases hc : w.changeIdRet < 0
          · rw [run_changeid_fail w pwd hargs hpw h0 hu hc]
            exact hchg pwd hargs hpw h0 hu hc
          · cases hx : w.execOk
            · rw [run_exec_fail w pwd hargs hpw h0 hu hc hx]
              exact hfail pwd hargs hpw h0 hu hc hx
            · rw [run_exec_ok w pwd hargs hpw h0 hu hc hx]
              exact hok pwd hargs hpw h0 hu hc hx

/-- With at least three tokens, the argument vector passed to the exec
starts with the command token itself. -/
theorem headD_drop_two (l : List String) (h : 2 < l.length) :
    (l.drop 2).headD "" = l.getD 2 "" := by
  rcases l with _ | ⟨a, _ | ⟨b, _ | ⟨c, r⟩⟩⟩ <;> simp_all [List.getD]

/-! The claims. -/

/-- C1: whenever the target name resolves to an identity with user id 0
— whatever the name in the database — the run prints the root-disallowed
message and exits with a non-zero status, and its trace contains no
capability mutation and no identity-switch attempt at all (so in
particular none before the message). -/
theorem root_guard_rejects_uid0 (w : World) (pwd : Passwd)
    (hargs : 2 < w.argv.length) (hpw : w.pwnam = some pwd)
    (h0 : pwd.pw_uid = 0) :
    outcome w = .exited EXIT_FAILURE ∧ EXIT_FAILURE ≠ 0 ∧
    Event.rootDisallowed ∈ trace w ∧
    ∀ e ∈ trace w, isCapMutation e = false ∧ isIdentitySwitch e = false := by
  have h := run_root w pwd hargs hpw h0
  unfold trace outcome
  rw [h]
  refine ⟨rfl, by decide, by simp, ?_⟩
  simp [isCapMutation, isIdentitySwitch]

/-- Witness for `root_guard_rejects_uid0`: the invocation `wRoot`, whose
name "admin" (not "root") resolves to uid 0. -/
theorem root_guard_rejects_uid0_witness :
    2 < wRoot.argv.length ∧ wRoot.pwnam = some ⟨0, 5⟩ ∧
    (outcome wRoot = .exited EXIT_FAILURE ∧ EXIT_FAILURE ≠ 0 ∧
      Event.rootDisallowed ∈ trace wRoot ∧
      ∀ e ∈ trace wRoot, isCapMutation e = false ∧ isIdentitySwitch e = false) :=
  ⟨by decide, by decide,
    root_guard_rejects_uid0 wRoot ⟨0, 5⟩ (by decide) (by decide) (by decide)⟩

/-- C5: when the lookup returns no entry the run distinguishes the two
failure modes by the signalled error code — a nonzero signalled code
yields the system-error diagnostic carrying that code, no signalled
error yields the user-not-found diagnostic naming the requested user —
and in both modes it exits with the same failure status, having
performed no capability mutation. -/
theorem lookup_failure_modes (w : World)
    (hargs : 2 < w.argv.length) (hpw : w.pwnam = none) :
    outcome w = .exited EXIT_FAILURE ∧ EXIT_FAILURE ≠ 0 ∧
    (∀ e ∈ trace w, isCapMutation e = false) ∧
    (∀ c, w.pwnamErr = some c → c ≠ 0 →
      Event.perrorOut "getpanam" c ∈ trace w) ∧
    (w.pwnamErr.getD 0 = 0 →
      Event.userNotFound (w.argv.getD 1 "") ∈ trace w ∧
      ∀ t c, Event.perrorOut t c ∉ trace w) := by
  unfold trace outcome
  rcases hpe : w.pwnamErr with _ | e
  · have h := run_lookup_notfound w hargs hpw (by simp [hpe])
    rw [h]
    refine ⟨rfl, by decide, by simp [isCapMutation], ?_, ?_⟩
    · intro c hc
      exact absurd hc (by simp)
    · intro _
      exact ⟨by simp, by intro t c; simp⟩
  · by_cases he0 : e = 0
    · subst he0
      have h := run_lookup_notfound w hargs hpw (by simp [hpe])
      rw [h]
      refine ⟨rfl, by decide, by simp [isCapMutation], ?_, ?_⟩
      · intro c hc hc0
        simp at hc
        omega
      · intro _
        exact ⟨by simp, by intro t c; simp⟩
    · have h := run_lookup_perror w e hargs hpw hpe he0
      rw [h]
      refine ⟨rfl, by decide, by simp [isCapMutation], ?_, ?_⟩
      · intro c hc hc0
        simp at hc
        subst hc
        simp
      · intro hg
        simp at hg
        exact absurd hg he0

/-- Witness for `lookup_failure_modes`: the invocation `wNotFound`,
whose lookup finds nothing and signals no error. -/
theorem lookup_failure_modes_witness :
    Event.userNotFound "ghost" ∈ trace wNotFound ∧
    ∀ t c, Event.perrorOut t c ∉ trace wNotFound :=
  (lookup_failure_modes wNotFound (by decide) rfl).2.2.2.2 rfl

/-- C6: with fewer than 3 argument tokens the run prints the usage
message and exits non-zero, performing no identity lookup, no
capability mutation and no identity switch; with at least 3 tokens
validation passes and the identity lookup on the user-name token is
performed. -/
theorem argument_validator_spec (w : World) :
    (w.argv.length < 3 →
      Event.usage (w.argv.headD "") ∈ trace w ∧
      outcome w = .exited EXIT_FAILURE ∧ EXIT_FAILURE ≠ 0 ∧
      ∀ e ∈ trace w, (∀ n, e ≠ .lookupUser n) ∧
        isCapMutation e = false ∧ isIdentitySwitch e = false) ∧
    (3 ≤ w.argv.length → Event.lookupUser (w.argv.getD 1 "") ∈ trace w) := by
  constructor
  · intro h
    have h2 := run_usage w (by omega)
    unfold trace outcome
    rw [h2]
    refine ⟨by simp, rfl, by decide, ?_⟩
    simp [isCapMutation, isIdentitySwitch]
  · intro h
    show Event.lookupUser (w.argv.getD 1 "") ∈ (run w).1
    refine run_elim w (fun r => Event.lookupUser (w.argv.getD 1 "") ∈ r.1)
      ?_ ?_ ?_ ?_ ?_ ?_ ?_ ?_
    · intro h2
      omega
    all_goals intros; simp

/-- Witness for `argument_validator_spec`: both branches, at the
one-token invocation `wUsage` and the four-token invocation `wOk`. -/
theorem argument_validator_spec_witness :
    (Event.usage "prog" ∈ trace wUsage ∧
      outcome wUsage = .exited EXIT_FAILURE) ∧
    Event.lookupUser "alice" ∈ trace wOk :=
  ⟨⟨((argument_validator_spec wUsage).1 (by decide)).1,
    ((argument_validator_spec wUsage).1 (by decide)).2.1⟩,
    (argument_validator_spec wOk).2 (by decide)⟩

/-- C9: the root guard tests only the resolved user id: any identity
with nonzero uid proceeds past the guard (the capability clear is
reached, the root-disallowed message never appears) regardless of its
primary group id — in particular gid 0 — and the identity switch then
carries exactly that gid. -/
theorem root_guard_tests_only_uid (w : World) (pwd : Passwd)
    (hargs : 2 < w.argv.length) (hpw : w.pwnam = some pwd)
    (h0 : pwd.pw_uid ≠ 0) :
    Event.rootDisallowed ∉ trace w ∧
    Event.capngClear .both ∈ trace w ∧
    (¬ w.updatevRet < 0 →
      Event.capngChangeId pwd.pw_uid pwd.pw_gid true ∈ trace w) := by
  by_cases hu : w.updatevRet < 0
  · have h := run_updatev_fail w pwd hargs hpw h0 hu
    simp only [trace, h]
    exact ⟨by simp, by simp, fun hu2 => absurd hu hu2⟩
  · by_cases hc : w.changeIdRet < 0
    · have h := run_changeid_fail w pwd hargs hpw h0 hu hc
      simp only [trace, h]
      exact ⟨by simp, by simp, fun _ => by simp⟩
    · cases hx : w.execOk
      · have h := run_exec_fail w pwd hargs hpw h0 hu hc hx
        simp only [trace, h]
        exact ⟨by simp, by simp, fun _ => by simp⟩
      · have h := run_exec_ok w pwd hargs hpw h0 hu hc hx
        simp only [trace, h]
        exact ⟨by simp, by simp, fun _ => by simp⟩

/-- Witness for `root_guard_tests_only_uid`: the invocation `wOk`,
whose target resolves to uid 1000 with primary group id 0; the guard
accepts it and the switch carries gid 0. -/
theorem root_guard_tests_only_uid_witness :
    Event.rootDisallowed ∉ trace wOk ∧
    Event.capngClear .both ∈ trace wOk ∧
    Event.capngChangeId 1000 0 true ∈ trace wOk :=
  ⟨(root_guard_tests_only_uid wOk ⟨1000, 0⟩ (by decide) (by decide)
      (by decide)).1,
    (root_guard_tests_only_uid wOk ⟨1000, 0⟩ (by decide) (by decide)
      (by decide)).2.1,
    (root_guard_tests_only_uid wOk ⟨1000, 0⟩ (by decide) (by decide)
      (by decide)).2.2 (by decide)⟩

/-- C3: on any run that passes the root guard, the clear of both the
working capability sets and the bounding set occurs before the single
grant of exactly SETUID and SETGID to the four categories (effective,
permitted, inheritable, ambient), and these two are the only capability
mutations; if the grant returns a negative code the run reports that
code and exits non-zero with no identity-switch attempt at all. -/
theorem capability_restrictor_spec (w : World) (pwd : Passwd)
    (hargs : 2 < w.argv.length) (hpw : w.pwnam = some pwd)
    (h0 : pwd.pw_uid ≠ 0) :
    List.Sublist [Event.capngClear .both,
      Event.capngAdd [.effective, .permitted, .inheritable, .ambient]
        [.setuid, .setgid]] (trace w) ∧
    (∀ e ∈ trace w, isCapMutation e = true →
      e = Event.capngClear .both ∨
      e = Event.capngAdd [.effective, .permitted, .inheritable, .ambient]
        [.setuid, .setgid]) ∧
    (w.updatevRet < 0 →
      Event.capngUpdatevFailed w.updatevRet ∈ trace w ∧
      outcome w = .exited EXIT_FAILURE ∧ EXIT_FAILURE ≠ 0 ∧
      ∀ e ∈ trace w, isIdentitySwitch e = false) := by
  unfold trace outcome
  by_cases hu : w.updatevRet < 0
  · rw [run_updatev_fail w pwd hargs hpw h0 hu]
    refine ⟨.cons _ (.cons _ (.cons _ (.cons₂ _ (.cons₂ _
      (List.nil_sublist _))))), by simp [isCapMutation], ?_⟩
    intro _
    exact ⟨by simp, rfl, by decide, by simp [isIdentitySwitch]⟩
  · by_cases hc : w.changeIdRet < 0
    · rw [run_changeid_fail w pwd hargs hpw h0 hu hc]
      exact ⟨.cons _ (.cons _ (.cons _ (.cons₂ _ (.cons₂ _
        (List.nil_sublist _))))), by simp [isCapMutation],
        fun hu2 => absurd hu2 hu⟩
    · cases hx : w.execOk
      · rw [run_exec_fail w pwd hargs hpw h0 hu hc hx]
        exact ⟨.cons _ (.cons _ (.cons _ (.cons₂ _ (.cons₂ _
          (List.nil_sublist _))))), by simp [isCapMutation],
          fun hu2 => absurd hu2 hu⟩
      · rw [run_exec_ok w pwd hargs hpw h0 hu hc hx]
        exact ⟨.cons _ (.cons _ (.cons _ (.cons₂ _ (.cons₂ _
          (List.nil_sublist _))))), by simp [isCapMutation],
          fun hu2 => absurd hu2 hu⟩

/-- Witness for `capability_restrictor_spec`: the invocation
`wUpdatevFail`, whose grant returns -1. -/
theorem capability_restrictor_spec_witness :
    Event.capngUpdatevFailed (-1) ∈ trace wUpdatevFail ∧
    outcome wUpdatevFail = .exited EXIT_FAILURE ∧ EXIT_FAILURE ≠ 0 ∧
    ∀ e ∈ trace wUpdatevFail, isIdentitySwitch e = false :=
  (capability_restrictor_spec wUpdatevFail ⟨1000, 1000⟩ (by decide)
    (by decide) (by decide)).2.2 (by decide)

/-- C4: on any run that passes the capability grant, the identity
switch is one single combined `capng_change_id` operation carrying the
resolved uid, the resolved primary gid and the
supplementary-group-initialization flag, and no other identity-switch
event exists; if it returns a negative code the run reports that code
and exits non-zero without attempting the exec. -/
theorem identity_switcher_spec (w : World) (pwd : Passwd)
    (hargs : 2 < w.argv.length) (hpw : w.pwnam = some pwd)
    (h0 : pwd.pw_uid ≠ 0) (hu : ¬ w.updatevRet < 0) :
    (trace w).count (Event.capngChangeId pwd.pw_uid pwd.pw_gid true) = 1 ∧
    (∀ u g s, Event.capngChangeId u g s ∈ trace w →
      u = pwd.pw_uid ∧ g = pwd.pw_gid ∧ s = true) ∧
    (w.changeIdRet < 0 →
      Event.capngChangeIdFailed w.changeIdRet ∈ trace w ∧
      outcome w = .exited EXIT_FAILURE ∧ EXIT_FAILURE ≠ 0 ∧
      ∀ e ∈ trace w, isExecAttempt e = false) := by
  unfold trace outcome
  by_cases hc : w.changeIdRet < 0
  · rw [run_changeid_fail w pwd hargs hpw h0 hu hc]
    refine ⟨by simp [List.count_cons], ?_, ?_⟩
    · intro u g s h
      simp at h
      exact h
    · intro _
      exact ⟨by simp, rfl, by decide, by simp [isExecAttempt]⟩
  · cases hx : w.execOk
    · rw [run_exec_fail w pwd hargs hpw h0 hu hc hx]
      refine ⟨by simp [List.count_cons], ?_, fun hc2 => absurd hc2 hc⟩
      intro u g s h
      simp at h
      exact h
    · rw [run_exec_ok w pwd hargs hpw h0 hu hc hx]
      refine ⟨by simp [List.count_cons], ?_, fun hc2 => absurd hc2 hc⟩
      intro u g s h
      simp at h
      exact h

/-- Witness for `identity_switcher_spec`: the invocation
`wChangeIdFail`, whose identity switch returns -2. -/
theorem identity_switcher_spec_witness :
    (trace wChangeIdFail).count (Event.capngChangeId 1000 1000 true) = 1 ∧
    Event.capngChangeIdFailed (-2) ∈ trace wChangeIdFail ∧
    ∀ e ∈ trace wChangeIdFail, isExecAttempt e = false :=
  ⟨(identity_switcher_spec wChangeIdFail ⟨1000, 1000⟩ (by decide)
      (by decide) (by decide) (by decide)).1,
    ((identity_switcher_spec wChangeIdFail ⟨1000, 1000⟩ (by decide)
      (by decide) (by decide) (by decide)).2.2 (by decide)).1,
    ((identity_switcher_spec wChangeIdFail ⟨1000, 1000⟩ (by decide)
      (by decide) (by decide) (by decide)).2.2 (by decide)).2.2.2⟩

/-- C7: on any run that passes the identity switch, the exec call names
the third invocation token, passes as argument vector exactly the tail
of the original invocation starting at that token (so the command is
argument zero), and passes the inherited environment unmodified; on
exec success the process image is replaced, and on exec failure the
diagnostic carrying the exec's own error code is the last event and the
wrapper exits non-zero. -/
theorem exec_launcher_spec (w : World) (pwd : Passwd)
    (hargs : 2 < w.argv.length) (hpw : w.pwnam = some pwd)
    (h0 : pwd.pw_uid ≠ 0) (hu : ¬ w.updatevRet < 0)
    (hc : ¬ w.changeIdRet < 0) :
    Event.execvpeCall (w.argv.getD 2 "") (w.argv.drop 2) w.envp ∈ trace w ∧
    (w.argv.drop 2).headD "" = w.argv.getD 2 "" ∧
    (w.execOk = true → outcome w = .replaced) ∧
    (w.execOk = false →
      Event.execFailed (w.execErr.getD 0) ∈ trace w ∧
      (trace w).getLast? = some (Event.execFailed (w.execErr.getD 0)) ∧
      outcome w = .exited EXIT_FAILURE ∧ EXIT_FAILURE ≠ 0) := by
  unfold trace outcome
  cases hx : w.execOk
  · rw [run_exec_fail w pwd hargs hpw h0 hu hc hx]
    refine ⟨by simp, headD_drop_two w.argv hargs, ?_, ?_⟩
    · intro h
      simp at h
    · intro _
      exact ⟨by simp, rfl, rfl, by decide⟩
  · rw [run_exec_ok w pwd hargs hpw h0 hu hc hx]
    refine ⟨by simp, headD_drop_two w.argv hargs, fun _ => rfl, ?_⟩
    intro h
    simp at h

/-- Witness for `exec_launcher_spec`: the invocation `wExecFail`,
whose exec fails with errno 2. -/
theorem exec_launcher_spec_witness :
    Event.execvpeCall "/nonexistent" ["/nonexistent"] [] ∈ trace wExecFail ∧
    Event.execFailed 2 ∈ trace wExecFail ∧
    (trace wExecFail).getLast? = some (Event.execFailed 2) ∧
    outcome wExecFail = .exited EXIT_FAILURE :=
  ⟨(exec_launcher_spec wExecFail ⟨1000, 1000⟩ (by decide) (by decide)
      (by decide) (by decide) (by decide)).1,
    ((exec_launcher_spec wExecFail ⟨1000, 1000⟩ (by decide) (by decide)
      (by decide) (by decide) (by decide)).2.2.2 (by decide)).1,
    ((exec_launcher_spec wExecFail ⟨1000, 1000⟩ (by decide) (by decide)
      (by decide) (by decide) (by decide)).2.2.2 (by decide)).2.1,
    ((exec_launcher_spec wExecFail ⟨1000, 1000⟩ (by decide) (by decide)
      (by decide) (by decide) (by decide)).2.2.2 (by decide)).2.2.1⟩

/-- C2: every run's trace is ordered by pipeline phase — argument
validation, identity resolution, root check, capability clear,
capability grant, identity switch, exec — never revisiting an earlier
phase's core action and never repeating one (two core actions always
have strictly increasing phases); every diagnostic (failure) event is
the last event of its trace and its run exits with the non-zero failure
status. -/
theorem strict_pipeline_order (w : World) :
    ((trace w).Pairwise fun a b => phase a ≤ phase b ∧
      (isAction a = true → isAction b = true → phase a < phase b)) ∧
    (∀ e ∈ trace w, isDiagnostic e = true →
      (trace w).getLast? = some e ∧ outcome w = .exited EXIT_FAILURE) ∧
    EXIT_FAILURE ≠ 0 := by
  unfold trace outcome
  refine run_elim w (fun r =>
    (r.1.Pairwise fun a b => phase a ≤ phase b ∧
      (isAction a = true → isAction b = true → phase a < phase b)) ∧
    (∀ e ∈ r.1, isDiagnostic e = true →
      r.1.getLast? = some e ∧ r.2 = .exited EXIT_FAILURE) ∧
    EXIT_FAILURE ≠ 0) ?_ ?_ ?_ ?_ ?_ ?_ ?_ ?_
  all_goals intros
  all_goals refine ⟨by simp [phase, isAction], ?_, by decide⟩
  all_goals intro e he hd
  all_goals fin_cases he <;> simp_all [isDiagnostic, List.getLast?]

/-- Witness for `strict_pipeline_order`: in the invocation `wRoot` the
root-disallowed diagnostic is the final event and the run fails. -/
theorem strict_pipeline_order_witness :
    (trace wRoot).getLast? = some Event.rootDisallowed ∧
    outcome wRoot = .exited EXIT_FAILURE :=
  (strict_pipeline_order wRoot).2.1 .rootDisallowed (by decide) rfl

/-- C8: every run either ends in process-image replacement or exits
with the non-zero failure status, every failure exit is preceded by a
diagnostic message in the trace, and no run ever exits with status 0. -/
theorem exit_status_discipline (w : World) :
    (outcome w = .replaced ∨
      (outcome w = .exited EXIT_FAILURE ∧ EXIT_FAILURE ≠ 0 ∧
        ∃ e ∈ trace w, isDiagnostic e = true)) ∧
    ∀ c, outcome w = .exited c → c ≠ 0 := by
  unfold trace outcome
  refine run_elim w (fun r =>
    (r.2 = .replaced ∨
      (r.2 = .exited EXIT_FAILURE ∧ EXIT_FAILURE ≠ 0 ∧
        ∃ e ∈ r.1, isDiagnostic e = true)) ∧
    ∀ c, r.2 = .exited c → c ≠ 0) ?_ ?_ ?_ ?_ ?_ ?_ ?_ ?_
  all_goals intros
  · exact ⟨Or.inr ⟨rfl, by decide, ⟨.usage (w.argv.headD ""), by simp, rfl⟩⟩,
      by intro c h; simp [EXIT_FAILURE] at h; omega⟩
  · next e _ _ _ _ =>
    exact ⟨Or.inr ⟨rfl, by decide, ⟨.perrorOut "getpanam" e, by simp, rfl⟩⟩,
      by intro c h; simp [EXIT_FAILURE] at h; omega⟩
  · exact ⟨Or.inr ⟨rfl, by decide,
      ⟨.userNotFound (w.argv.getD 1 ""), by simp, rfl⟩⟩,
      by intro c h; simp [EXIT_FAILURE] at h; omega⟩
  · exact ⟨Or.inr ⟨rfl, by decide, ⟨.rootDisallowed, by simp, rfl⟩⟩,
      by intro c h; simp [EXIT_FAILURE] at h; omega⟩
  · exact ⟨Or.inr ⟨rfl, by decide,
      ⟨.capngUpdatevFailed w.updatevRet, by simp, rfl⟩⟩,
      by intro c h; simp [EXIT_FAILURE] at h; omega⟩
  · exact ⟨Or.inr ⟨rfl, by decide,
      ⟨.capngChangeIdFailed w.changeIdRet, by simp, rfl⟩⟩,
      by intro c h; simp [EXIT_FAILURE] at h; omega⟩
  · exact ⟨Or.inl rfl, by intro c h; simp at h⟩
  · exact ⟨Or.inr ⟨rfl, by decide,
      ⟨.execFailed (w.execErr.getD 0), by simp, rfl⟩⟩,
      by intro c h; simp [EXIT_FAILURE] at h; omega⟩

/-- Witness for `exit_status_discipline`: the usage failure of `wUsage`
exits with the failure status, which is non-zero. -/
theorem exit_status_discipline_witness :
    outcome wUsage = .exited EXIT_FAILURE ∧ EXIT_FAILURE ≠ 0 :=
  ⟨by decide, (exit_status_discipline wUsage).2 EXIT_FAILURE (by decide)⟩

/-- C10: the whole run is independent of the error-indicator value the
process starts with, because of the resets before the lookup and before
the exec: a lookup that finds nothing and signals no error yields the
user-not-found diagnostic (never the system-error one) whatever the
initial indicator held, and the diagnostic of a failed exec carries
only the error the exec call itself signalled. -/
theorem errno_reset_isolation (w : World) :
    (∀ x, run { w with errno0 := x } = run w) ∧
    (2 < w.argv.length → w.pwnam = none → w.pwnamErr = none →
      Event.userNotFound (w.argv.getD 1 "") ∈ trace w ∧
      ∀ t c, Event.perrorOut t c ∉ trace w) ∧
    (∀ pwd, 2 < w.argv.length → w.pwnam = some pwd → pwd.pw_uid ≠ 0 →
      ¬ w.updatevRet < 0 → ¬ w.changeIdRet < 0 → w.execOk = false →
      Event.execFailed (w.execErr.getD 0) ∈ trace w ∧
      (trace w).getLast? = some (Event.execFailed (w.execErr.getD 0))) := by
  refine ⟨fun x => rfl, ?_, ?_⟩
  · intro hargs hpw hpe
    have h := run_lookup_notfound w hargs hpw (by simp [hpe])
    unfold trace
    rw [h]
    exact ⟨by simp, by intro t c; simp⟩
  · intro pwd hargs hpw h0 hu hc hx
    have h := run_exec_fail w pwd hargs hpw h0 hu hc hx
    unfold trace
    rw [h]
    exact ⟨by simp, rfl⟩

/-- Witness for `errno_reset_isolation`: the invocation `wNotFound`,
which starts with error indicator 7 yet reports user-not-found. -/
theorem errno_reset_isolation_witness :
    run { wNotFound with errno0 := 0 } = run wNotFound ∧
    Event.userNotFound "ghost" ∈ trace wNotFound ∧
    ∀ t c, Event.perrorOut t c ∉ trace wNotFound :=
  ⟨(errno_reset_isolation wNotFound).1 0,
    ((errno_reset_isolation wNotFound).2.1 (by decide) rfl rfl).1,
    ((errno_reset_isolation wNotFound).2.1 (by decide) rfl rfl).2⟩

end SuidWrapper
